import Mathlib

/-!
Shallow embedding of the prompt-loading module `langchain/prompts/loading.py`.

The module resolves a serialized configuration (a Python dict) into a
constructed prompt object.  We embed:

  * Python/JSON values as the inductive `Value`; a configuration dict is an
    association list `Config` with string keys (Python dicts have unique
    keys; the list order models dict insertion order).
  * dict operations `k in config`, `config[k]`, `config.pop(k)` and
    `config[k] = v` as `cfgContains`, `cfgGet`, `cfgErase` and `cfgSet`.
  * the ambient effects (filesystem reads, `json.load` / `yaml.safe_load`
    parsing of file contents, `requests.get`, the fresh temporary directory)
    as an explicit environment `Env`.
  * each raised exception as a constructor of `Err`; Python's in-place
    mutation of the configuration is visible in `_load_template_run`, which
    returns the final state of the dict next to the optional error.
  * the mutual recursion between `load_prompt`, `_load_prompt_from_file`,
    `_load_from_hub`, `load_prompt_from_config` and `_load_few_shot_prompt`
    via a fuel parameter (`Err.outOfFuel` is an artifact of the embedding;
    every claim is stated with enough fuel for the source's call depth).
  * the constructed collaborator objects `PromptTemplate(**kwargs)`,
    `FewShotPromptTemplate(**kwargs)` and `RegexParser(**kwargs)` opaquely,
    as the keyword arguments passed to their constructors (their own
    validation is outside this module, per the module's imports).
  * the `.py` branch of `_load_prompt_from_file` (exec of trusted code and
    extraction of the `PROMPT` binding) opaquely as `Value.vpyObj` holding
    the executed source text: dynamic code execution is not embeddable.
-/

set_option maxHeartbeats 1000000

/-- Value models a Python/JSON value occurring in a prompt-loading
configuration: strings, `None`, lists, dicts, plus the constructed objects
that resolution writes back into the mapping. -/
inductive Value : Type where
  | vstr : String → Value
  | vnull : Value
  | vlist : List Value → Value
  | vmap : List (String × Value) → Value
  | vpromptObj : List (String × Value) → Value
  | vfewshotObj : List (String × Value) → Value
  | vparserObj : List (String × Value) → Value
  | vpyObj : String → Value

/-- Configuration dict: association list from field name to value. -/
abbrev Config : Type := List (String × Value)

/-- Embedding of `config[key]` as a total lookup (`none` models `KeyError`). -/
def cfgGet : Config → String → Option Value
  | [], _ => none
  | (k, v) :: rest, key => if k = key then some v else cfgGet rest key

/-- Embedding of the Python membership test `key in config`. -/
def cfgContains (c : Config) (k : String) : Bool :=
  (cfgGet c k).isSome

/-- Embedding of `config.pop(key)`'s effect on the dict (entry removal). -/
def cfgErase : Config → String → Config
  | [], _ => []
  | (k, v) :: rest, key =>
    if k = key then cfgErase rest key else (k, v) :: cfgErase rest key

/-- Embedding of the assignment `config[key] = val` (replace in place, or
append when the key is new, matching dict insertion-order semantics). -/
def cfgSet : Config → String → Value → Config
  | [], key, val => [(key, val)]
  | (k, v) :: rest, key, val =>
    if k = key then (key, val) :: rest else (k, v) :: cfgSet rest key val

/-- Value classifier for `isinstance(x, list)`. -/
def Value.isList : Value → Bool
  | .vlist _ => true
  | _ => false

/-- Value classifier for `isinstance(x, str)`. -/
def Value.isStr : Value → Bool
  | .vstr _ => true
  | _ => false

/-- Helper splitting a character list at every occurrence of `c`. -/
def splitOnCharAux (c : Char) : List Char → List Char → List String
  | [], acc => [String.mk acc.reverse]
  | x :: xs, acc =>
    if x = c then String.mk acc.reverse :: splitOnCharAux c xs []
    else splitOnCharAux c xs (x :: acc)

/-- Embedding of Python `s.split(c)` for a one-character separator (total,
returns `[s]` when the separator does not occur). -/
def splitOnChar (c : Char) (s : String) : List String :=
  splitOnCharAux c s.toList []

/-- Embedding of Python `s.endswith(t)`. -/
def strEndsWith (s t : String) : Bool :=
  List.isPrefixOf t.toList.reverse s.toList.reverse

/-- Embedding of Python `s.startswith(t)`. -/
def strStartsWith (s t : String) : Bool :=
  List.isPrefixOf t.toList s.toList

/-- Final path component, as `pathlib.Path(p).name`: the part after the last
slash (empty components from repeated or trailing slashes are normalized
away, as `Path` does). -/
def lastComponent (p : String) : String :=
  ((splitOnChar '/' p).filter (fun s => s ≠ "")).getLastD ""

/-- Embedding of `pathlib.Path(p).suffix`: the extension of the final
component including its dot, empty when the name has no dot, ends with its
only dot, or starts with its only dot (`pathlib`'s `0 < i < len(name) - 1`
rule for the last dot position `i`). -/
def pathSuffix (p : String) : String :=
  let name := lastComponent p
  match splitOnChar '.' name with
  | [] => ""
  | [_] => ""
  | p0 :: rest =>
    let ext := rest.getLastD ""
    if ext = "" then ""
    else if p0 = "" ∧ rest.length = 1 then ""
    else "." ++ ext

/-- Embedding of the trailing-extension computation `path.split(".")[-1]`
used by `_load_from_hub` (the whole string when no dot occurs). -/
def hubSuffix (path : String) : String :=
  (splitOnChar '.' path).getLastD path

/-- Every exception the module can raise, one constructor per raise site
(payloads record what the message interpolates):
`conflictingField` for both `F` and `F_path` supplied;
`unsupportedTemplateFormat` for a non-`.txt` field file (bare `ValueError`);
`unsupportedExamplesFormat` / `invalidExamplesType` for a bad examples field;
`unsupportedStrategy` for an unrecognized output-parser tag (carries the tag);
`unknownPromptType` for an unrecognized top-level `_type` (bare `ValueError`);
`unsupportedFileType` for a bad local config extension (carries the suffix);
`unsupportedHubType` for a bad hub extension (bare message);
`notFound` for a non-200 hub response (carries the URL);
`keyError` / `fileNotFound` / `typeError` / `parseError` for the Python
`KeyError` / `FileNotFoundError` / `TypeError` / decode errors;
`outOfFuel` is an artifact of the fuel-based embedding of the recursion. -/
inductive Err : Type where
  | conflictingField : String → Err
  | unsupportedTemplateFormat : Err
  | unsupportedExamplesFormat : Err
  | invalidExamplesType : Err
  | unsupportedStrategy : Value → Err
  | unknownPromptType : Err
  | unsupportedFileType : String → Err
  | unsupportedHubType : Err
  | notFound : String → Err
  | keyError : String → Err
  | fileNotFound : String → Err
  | typeError : Err
  | parseError : Err
  | outOfFuel : Err

/-- Ambient effects of the module, made explicit: `fs` is the filesystem
(`open(p).read()`, `none` for a missing file), `parseJson` and `parseYaml`
are `json.load` / `yaml.safe_load` applied to file contents (`none` models a
decode error), `fetch` is `requests.get` returning status code and body for
a URL, and `tmpdir` is the fresh temporary directory name the remote
resolver gets for this invocation. -/
structure Env : Type where
  fs : String → Option String
  parseJson : String → Option Value
  parseYaml : String → Option Value
  fetch : String → Nat × String
  tmpdir : String

/-- Environment after `_load_from_hub` writes the fetched bytes to `path`. -/
def Env.withFile (env : Env) (path content : String) : Env :=
  { env with fs := fun p => if p = path then some content else env.fs p }

/-- Environment with no files, no parses and a 404 for every URL; used for
runs that never touch the ambient effects. -/
def emptyEnv : Env :=
  { fs := fun _ => none
    parseJson := fun _ => none
    parseYaml := fun _ => none
    fetch := fun _ => (404, "")
    tmpdir := "/tmp/t" }

/-- Fixed remote base `URL_BASE` of the hub resolver. -/
def URL_BASE : String :=
  "https://raw.githubusercontent.com/hwchase17/langchain-hub/master/prompts/"

/-- Embedding of `_load_template(var_name, config)` exposing the dict's
final state next to the optional error, because the source mutates `config`
in place: the `pop` of `{var_name}_path` happens before the suffix check, so
on the non-`.txt` failure path the returned state already lacks the `_path`
key.  Source order: membership check, conflict check, `pop`, `Path(...)`
(a non-string popped value raises `TypeError` there), suffix check, file
read, assignment. -/
def _load_template_run (env : Env) (var_name : String) (config : Config) :
    Config × Option Err :=
  match cfgGet config (var_name ++ "_path") with
  | none => (config, none)
  | some pv =>
    if cfgContains config var_name then
      (config, some (Err.conflictingField var_name))
    else
      let config := cfgErase config (var_name ++ "_path")
      match pv with
      | Value.vstr p =>
        if pathSuffix p = ".txt" then
          match env.fs p with
          | some text => (cfgSet config var_name (Value.vstr text), none)
          | none => (config, some (Err.fileNotFound p))
        else (config, some Err.unsupportedTemplateFormat)
      | _ => (config, some Err.typeError)

/-- Exception-style view of `_load_template`: the returned configuration on
success, the raised error otherwise. -/
def _load_template (env : Env) (var_name : String) (config : Config) :
    Except Err Config :=
  match _load_template_run env var_name config with
  | (c, none) => Except.ok c
  | (_, some e) => Except.error e

/-- Embedding of `_load_examples(config)`: a list value passes through; a
string value is opened (so a missing file fails before the extension
dispatch, as in the source) and decoded by `endswith` checks in source
order (`.json`, then `.yaml`/`.yml`, else the unsupported-format error);
any other value type is invalid. -/
def _load_examples (env : Env) (config : Config) : Except Err Config :=
  match cfgGet config "examples" with
  | none => Except.error (Err.keyError "examples")
  | some (Value.vlist _) => Except.ok config
  | some (Value.vstr s) =>
    match env.fs s with
    | none => Except.error (Err.fileNotFound s)
    | some content =>
      if strEndsWith s ".json" then
        match env.parseJson content with
        | none => Except.error Err.parseError
        | some ex => Except.ok (cfgSet config "examples" ex)
      else if strEndsWith s ".yaml" || strEndsWith s ".yml" then
        match env.parseYaml content with
        | none => Except.error Err.parseError
        | some ex => Except.ok (cfgSet config "examples" ex)
      else Except.error Err.unsupportedExamplesFormat
  | some _ => Except.error Err.invalidExamplesType

/-- Embedding of `_load_output_parser(config)`: absent or `None` values
pass through; for a nested dict the tag `_config["_type"]` is read (a
missing tag is a `KeyError`) but NOT popped, and on the `regex_parser` tag
the whole nested dict — tag included — becomes the `RegexParser` keyword
arguments written back over `config["output_parser"]`; any other tag raises
with the tag in the message; a non-dict, non-`None` value raises `TypeError`
at the subscript. -/
def loadOutputParser (config : Config) : Except Err Config :=
  match cfgGet config "output_parser" with
  | none => Except.ok config
  | some Value.vnull => Except.ok config
  | some (Value.vmap m) =>
    match cfgGet m "_type" with
    | none => Except.error (Err.keyError "_type")
    | some (Value.vstr s) =>
      if s = "regex_parser" then
        Except.ok (cfgSet config "output_parser" (Value.vparserObj m))
      else Except.error (Err.unsupportedStrategy (Value.vstr s))
    | some t => Except.error (Err.unsupportedStrategy t)
  | some _ => Except.error Err.typeError

/-- Embedding of `_load_prompt(config)`: resolve the `template` field, then
the output parser, then construct `PromptTemplate(**config)`. -/
def _load_prompt (env : Env) (config : Config) : Except Err Value := do
  let config ← _load_template env "template" config
  let config ← loadOutputParser config
  pure (Value.vpromptObj config)

/-- Model of `os.path.relpath(path, "lc://prompts/")` for the identifiers
the entry point routes here (those starting with `lc://prompts`): strips the
scheme prefix; the degenerate inputs where `relpath` would emit `.` or `..`
components are mapped best-effort and are exercised by no claim. -/
def relpathFromHub (p : String) : String :=
  if strStartsWith p "lc://prompts/" then String.mk (p.toList.drop 13)
  else if p = "lc://prompts" then "."
  else p

/-- Request selector for the mutually recursive source functions: which of
them a `loadRun` step executes. -/
inductive Req : Type where
  | fromConfig : Config → Req
  | fewShot : Config → Req
  | entry : String → Req
  | fromFile : String → Req
  | fromHub : String → Req

/-- Single fuel-indexed worker for the mutually recursive part of the
module; each branch is the body of one source function, and every call
between them spends one unit of fuel.

`Req.fromConfig` is `load_prompt_from_config`: pop `_type` (default
`"prompt"`), dispatch to `_load_prompt`, `_load_few_shot_prompt`, or the
bare `ValueError` (a non-string tag compares unequal to both literals and
also lands there).

`Req.fewShot` is `_load_few_shot_prompt`: resolve `suffix` then `prefix`;
then the example prompt — with `example_prompt_path` present, a present
`example_prompt` is the conflict error, otherwise the path is popped and
`load_prompt` is called on it (a non-string path value raises `TypeError`
downstream at `Path(...)`); with no `example_prompt_path`, the inline
`example_prompt` dict is resolved recursively (absent: `KeyError`; a
non-dict value fails at the recursive call's first dict operation,
modeled as a type error at the match) — and the result is written back;
then resolve
`examples` and the output parser and construct
`FewShotPromptTemplate(**config)`.

`Req.entry` is `load_prompt`: route by the `lc://prompts` prefix to the hub
resolver (with the prefix stripped) or to the local file reader.

`Req.fromFile` is `_load_prompt_from_file`: dispatch on `Path(file).suffix`
— `.json` and `.yaml` (and only those two) parse the file into a
configuration and resolve it (a missing file is `FileNotFoundError`; a
non-dict parse fails at the resolver's first dict operation, modeled as a
type error); `.py` executes the
file and yields its `PROMPT` binding (opaque here); any other suffix raises
with the suffix in the message.

`Req.fromHub` is `_load_from_hub`: validate `path.split(".")[-1]` against
`{py, json, yaml}` before any fetch; fetch `URL_BASE + path`; a non-200
status raises with the full URL in the message; otherwise write the body to
`tmpdir + "/prompt." + suffix` and delegate to the file reader. -/
def loadRun (env : Env) : Nat → Req → Except Err Value
  | 0, _ => Except.error Err.outOfFuel
  | fuel + 1, Req.fromConfig config =>
    let prompt_type := (cfgGet config "_type").getD (Value.vstr "prompt")
    let config := cfgErase config "_type"
    match prompt_type with
    | Value.vstr s =>
      if s = "prompt" then _load_prompt env config
      else if s = "few_shot" then loadRun env fuel (Req.fewShot config)
      else Except.error Err.unknownPromptType
    | _ => Except.error Err.unknownPromptType
  | fuel + 1, Req.fewShot config => do
    let config ← _load_template env "suffix" config
    let config ← _load_template env "prefix" config
    let config ←
      if cfgContains config "example_prompt_path" then
        if cfgContains config "example_prompt" then
          Except.error (Err.conflictingField "example_prompt")
        else
          match cfgGet config "example_prompt_path" with
          | some (Value.vstr p) => do
            let obj ← loadRun env fuel (Req.entry p)
            pure (cfgSet (cfgErase config "example_prompt_path")
                    "example_prompt" obj)
          | _ => Except.error Err.typeError
      else
        match cfgGet config "example_prompt" with
        | some (Value.vmap m) => do
          let obj ← loadRun env fuel (Req.fromConfig m)
          pure (cfgSet config "example_prompt" obj)
        | some _ => Except.error Err.typeError
        | none => Except.error (Err.keyError "example_prompt")
    let config ← _load_examples env config
    let config ← loadOutputParser config
    pure (Value.vfewshotObj config)
  | fuel + 1, Req.entry path =>
    if strStartsWith path "lc://prompts" then
      loadRun env fuel (Req.fromHub (relpathFromHub path))
    else loadRun env fuel (Req.fromFile path)
  | fuel + 1, Req.fromFile file =>
    let sfx := pathSuffix file
    if sfx = ".json" then
      match env.fs file with
      | none => Except.error (Err.fileNotFound file)
      | some content =>
        match env.parseJson content with
        | none => Except.error Err.parseError
        | some (Value.vmap config) => loadRun env fuel (Req.fromConfig config)
        | some _ => Except.error Err.typeError
    else if sfx = ".yaml" then
      match env.fs file with
      | none => Except.error (Err.fileNotFound file)
      | some content =>
        match env.parseYaml content with
        | none => Except.error Err.parseError
        | some (Value.vmap config) => loadRun env fuel (Req.fromConfig config)
        | some _ => Except.error Err.typeError
    else if sfx = ".py" then
      match env.fs file with
      | none => Except.error (Err.fileNotFound file)
      | some content => Except.ok (Value.vpyObj content)
    else Except.error (Err.unsupportedFileType sfx)
  | fuel + 1, Req.fromHub path =>
    let sfx := hubSuffix path
    if sfx = "py" ∨ sfx = "json" ∨ sfx = "yaml" then
      let full_url := URL_BASE ++ path
      let r := env.fetch full_url
      if r.1 ≠ 200 then Except.error (Err.notFound full_url)
      else
        let file := env.tmpdir ++ "/prompt." ++ sfx
        loadRun (env.withFile file r.2) fuel (Req.fromFile file)
    else Except.error Err.unsupportedHubType

/-- Source name for the `Req.fromConfig` branch of `loadRun`. -/
def load_prompt_from_config (env : Env) (fuel : Nat) (config : Config) :
    Except Err Value :=
  loadRun env fuel (Req.fromConfig config)

/-- Source name for the `Req.fewShot` branch of `loadRun`. -/
def _load_few_shot_prompt (env : Env) (fuel : Nat) (config : Config) :
    Except Err Value :=
  loadRun env fuel (Req.fewShot config)

/-- Source name for the `Req.entry` branch of `loadRun`. -/
def load_prompt (env : Env) (fuel : Nat) (path : String) : Except Err Value :=
  loadRun env fuel (Req.entry path)

/-- Source name for the `Req.fromFile` branch of `loadRun`. -/
def _load_prompt_from_file (env : Env) (fuel : Nat) (file : String) :
    Except Err Value :=
  loadRun env fuel (Req.fromFile file)

/-- Source name for the `Req.fromHub` branch of `loadRun`. -/
def _load_from_hub (env : Env) (fuel : Nat) (path : String) :
    Except Err Value :=
  loadRun env fuel (Req.fromHub path)

/-! Lemmas about the configuration-dict operations. -/

theorem cfgGet_erase (c : Config) (k k' : String) :
    cfgGet (cfgErase c k) k' = if k' = k then none else cfgGet c k' := by
  induction c with
  | nil => simp [cfgErase, cfgGet]
  | cons hd tl ih =>
    obtain ⟨k0, v0⟩ := hd
    by_cases h0 : k0 = k <;> by_cases h1 : k0 = k' <;>
      by_cases h2 : k' = k <;> simp_all [cfgErase, cfgGet]

theorem cfgGet_set (c : Config) (k : String) (v : Value) (k' : String) :
    cfgGet (cfgSet c k v) k' = if k = k' then some v else cfgGet c k' := by
  induction c with
  | nil => simp [cfgSet, cfgGet]
  | cons hd tl ih =>
    obtain ⟨k0, v0⟩ := hd
    by_cases h0 : k0 = k <;> by_cases h1 : k0 = k' <;>
      by_cases h2 : k = k' <;> simp_all [cfgSet, cfgGet]

theorem cfgContains_erase (c : Config) (k k' : String) :
    cfgContains (cfgErase c k) k' =
      if k' = k then false else cfgContains c k' := by
  by_cases h : k' = k <;> simp [cfgContains, cfgGet_erase, h]

theorem cfgContains_set (c : Config) (k : String) (v : Value) (k' : String) :
    cfgContains (cfgSet c k v) k' = if k = k' then true else cfgContains c k' := by
  by_cases h : k = k' <;> simp [cfgContains, cfgGet_set, h]

theorem cfgErase_of_get_none (c : Config) (k : String)
    (h : cfgGet c k = none) : cfgErase c k = c := by
  induction c with
  | nil => simp [cfgErase]
  | cons hd tl ih =>
    obtain ⟨k0, v0⟩ := hd
    by_cases h0 : k0 = k <;> simp_all [cfgErase, cfgGet]

theorem cfgErase_ne_of_contains (c : Config) (k : String)
    (h : cfgContains c k = true) : cfgErase c k ≠ c := by
  intro he
  have h2 := cfgContains_erase c k k
  rw [he, if_pos rfl] at h2
  rw [h] at h2
  exact Bool.true_eq_false.mp h2

theorem path_suffix_key_ne (v : String) : v ++ "_path" ≠ v := by
  intro h
  have h2 := congrArg String.length h
  rw [String.length_append] at h2
  have h3 : String.length "_path" = 5 := rfl
  rw [h3] at h2
  omega

/-! Inversion and preservation lemmas for the leaf materializers. -/

theorem _load_template_ok_cases (env : Env) (v : String) (c c' : Config)
    (h : _load_template env v c = Except.ok c') :
    (cfgGet c (v ++ "_path") = none ∧ c' = c) ∨
    (∃ p text, cfgGet c (v ++ "_path") = some (Value.vstr p) ∧
      cfgContains c v = false ∧ pathSuffix p = ".txt" ∧
      env.fs p = some text ∧
      c' = cfgSet (cfgErase c (v ++ "_path")) v (Value.vstr text)) := by
  unfold _load_template _load_template_run at h
  cases hg : cfgGet c (v ++ "_path") with
  | none =>
    rw [hg] at h
    simp at h
    exact Or.inl ⟨rfl, h.symm⟩
  | some pv =>
    rw [hg] at h
    cases hcv : cfgContains c v with
    | true => rw [hcv] at h; simp at h
    | false =>
      rw [hcv] at h
      simp only [Bool.false_eq_true, if_false] at h
      cases pv with
      | vstr p =>
        by_cases hs : pathSuffix p = ".txt"
        · cases hf : env.fs p with
          | none => simp [hs, hf] at h
          | some text =>
            simp [hs, hf] at h
            exact Or.inr ⟨p, text, rfl, rfl, hs, hf, h.symm⟩
        · simp [hs] at h
      | vnull => simp at h
      | vlist l => simp at h
      | vmap m => simp at h
      | vpromptObj m => simp at h
      | vfewshotObj m => simp at h
      | vparserObj m => simp at h
      | vpyObj s => simp at h

theorem loadOutputParser_ok_cases (c c' : Config)
    (h : loadOutputParser c = Except.ok c') :
    c' = c ∨ ∃ m, cfgGet c "output_parser" = some (Value.vmap m) ∧
      c' = cfgSet c "output_parser" (Value.vparserObj m) := by
  unfold loadOutputParser at h
  cases hg : cfgGet c "output_parser" with
  | none => rw [hg] at h; simp at h; exact Or.inl h.symm
  | some pv =>
    rw [hg] at h
    cases pv with
    | vnull => simp at h; exact Or.inl h.symm
    | vmap m =>
      cases ht : cfgGet m "_type" with
      | none => simp [ht] at h
      | some t =>
        cases t with
        | vstr s =>
          by_cases hrs : s = "regex_parser"
          · simp [ht, hrs] at h
            exact Or.inr ⟨m, rfl, h.symm⟩
          · simp [ht, hrs] at h
        | vnull => simp [ht] at h
        | vlist l => simp [ht] at h
        | vmap m2 => simp [ht] at h
        | vpromptObj m2 => simp [ht] at h
        | vfewshotObj m2 => simp [ht] at h
        | vparserObj m2 => simp [ht] at h
        | vpyObj s => simp [ht] at h
    | vstr s => simp at h
    | vlist l => simp at h
    | vpromptObj m => simp at h
    | vfewshotObj m => simp at h
    | vparserObj m => simp at h
    | vpyObj s => simp at h

theorem _load_examples_ok_cases (env : Env) (c c' : Config)
    (h : _load_examples env c = Except.ok c') :
    c' = c ∨ ∃ ex, c' = cfgSet c "examples" ex := by
  unfold _load_examples at h
  cases hg : cfgGet c "examples" with
  | none => rw [hg] at h; simp at h
  | some pv =>
    rw [hg] at h
    cases pv with
    | vlist l => simp at h; exact Or.inl h.symm
    | vstr s =>
      cases hf : env.fs s with
      | none => simp [hf] at h
      | some content =>
        by_cases hj : strEndsWith s ".json" = true
        · cases hp : env.parseJson content with
          | none => simp [hf, hj, hp] at h
          | some ex =>
            simp [hf, hj, hp] at h
            exact Or.inr ⟨ex, h.symm⟩
        · by_cases hy : (strEndsWith s ".yaml" || strEndsWith s ".yml") = true
          · cases hp : env.parseYaml content with
            | none => simp [hf, hj, hy, hp] at h
            | some ex =>
              simp [hf, hj, hy, hp] at h
              exact Or.inr ⟨ex, h.symm⟩
          · simp [hf, hj, hy] at h
    | vnull => simp at h
    | vmap m => simp at h
    | vpromptObj m => simp at h
    | vfewshotObj m => simp at h
    | vparserObj m => simp at h
    | vpyObj s => simp at h

theorem _load_template_contains_false (env : Env) (v : String)
    (c c' : Config) (k : String) (h : _load_template env v c = Except.ok c')
    (hk : k ≠ v) (hc : cfgContains c k = false) :
    cfgContains c' k = false := by
  rcases _load_template_ok_cases env v c c' h with ⟨_, he⟩ | ⟨p, text, _, _, _, _, he⟩
  · rw [he]; exact hc
  · rw [he, cfgContains_set, if_neg (fun he2 => hk he2.symm), cfgContains_erase]
    by_cases hp : k = v ++ "_path"
    · rw [if_pos hp]
    · rw [if_neg hp]; exact hc

theorem loadOutputParser_contains_false (c c' : Config) (k : String)
    (h : loadOutputParser c = Except.ok c') (hk : k ≠ "output_parser")
    (hc : cfgContains c k = false) : cfgContains c' k = false := by
  rcases loadOutputParser_ok_cases c c' h with he | ⟨m, _, he⟩
  · rw [he]; exact hc
  · rw [he, cfgContains_set, if_neg (fun he2 => hk he2.symm)]; exact hc

theorem _load_examples_contains_false (env : Env) (c c' : Config) (k : String)
    (h : _load_examples env c = Except.ok c') (hk : k ≠ "examples")
    (hc : cfgContains c k = false) : cfgContains c' k = false := by
  rcases _load_examples_ok_cases env c c' h with he | ⟨ex, he⟩
  · rw [he]; exact hc
  · rw [he, cfgContains_set, if_neg (fun he2 => hk he2.symm)]; exact hc

theorem _load_template_not_both (env : Env) (v : String) (c c' : Config)
    (h : _load_template env v c = Except.ok c') :
    (cfgContains c' v && cfgContains c' (v ++ "_path")) = false := by
  rcases _load_template_ok_cases env v c c' h with ⟨hg, he⟩ | ⟨p, text, hg, hv, hs, hf, he⟩
  · subst he
    have hx : cfgContains c' (v ++ "_path") = false := by
      simp [cfgContains, hg]
    rw [hx, Bool.and_false]
  · subst he
    have hx : cfgContains (cfgSet (cfgErase c (v ++ "_path")) v (Value.vstr text))
        (v ++ "_path") = false := by
      rw [cfgContains_set, if_neg (Ne.symm (path_suffix_key_ne v)),
        cfgContains_erase, if_pos rfl]
    rw [hx, Bool.and_false]

theorem exc_bind_ok {α β : Type} (a : α) (f : α → Except Err β) :
    (Except.ok a >>= f) = f a := rfl

theorem exc_bind_err {α β : Type} (e : Err) (f : α → Except Err β) :
    ((Except.error e : Except Err α) >>= f) = Except.error e := rfl

theorem _load_template_absent (env : Env) (v : String) (c : Config)
    (h : cfgGet c (v ++ "_path") = none) :
    _load_template env v c = Except.ok c := by
  unfold _load_template _load_template_run
  rw [h]

theorem _load_template_conflict (env : Env) (v : String) (c : Config)
    (h1 : cfgContains c (v ++ "_path") = true)
    (h2 : cfgContains c v = true) :
    _load_template env v c = Except.error (Err.conflictingField v) := by
  unfold _load_template _load_template_run
  cases hg : cfgGet c (v ++ "_path") with
  | none => simp [cfgContains, hg] at h1
  | some pv => simp [h2]

theorem _load_template_txt (env : Env) (v : String) (c : Config)
    (p text : String) (hg : cfgGet c (v ++ "_path") = some (Value.vstr p))
    (hv : cfgContains c v = false) (hs : pathSuffix p = ".txt")
    (hf : env.fs p = some text) :
    _load_template env v c =
      Except.ok (cfgSet (cfgErase c (v ++ "_path")) v (Value.vstr text)) := by
  unfold _load_template _load_template_run
  rw [hg]
  simp [hv, hs, hf]

theorem _load_template_bad_ext (env : Env) (v : String) (c : Config)
    (p : String) (hg : cfgGet c (v ++ "_path") = some (Value.vstr p))
    (hv : cfgContains c v = false) (hs : pathSuffix p ≠ ".txt") :
    _load_template env v c = Except.error Err.unsupportedTemplateFormat := by
  unfold _load_template _load_template_run
  rw [hg]
  simp [hv, hs]

theorem _load_prompt_ok_cases (env : Env) (c : Config) (r : Value)
    (h : _load_prompt env c = Except.ok r) :
    ∃ c1 c2, _load_template env "template" c = Except.ok c1 ∧
      loadOutputParser c1 = Except.ok c2 ∧ r = Value.vpromptObj c2 := by
  unfold _load_prompt at h
  cases h1 : _load_template env "template" c with
  | error e => rw [h1] at h; simp [exc_bind_err] at h
  | ok c1 =>
    rw [h1] at h
    simp only [exc_bind_ok] at h
    cases h2 : loadOutputParser c1 with
    | error e => rw [h2] at h; simp [exc_bind_err] at h
    | ok c2 =>
      rw [h2] at h
      simp only [exc_bind_ok] at h
      exact ⟨c1, c2, rfl, h2, (Except.ok.inj h).symm⟩
theorem exc_pure_bind {α β : Type} (a : α) (f : α → Except Err β) :
    ((pure a : Except Err α) >>= f) = f a := rfl

theorem fewShot_step_ok (env : Env) (n : Nat) (config : Config) (r : Value)
    (h : loadRun env (n + 1) (Req.fewShot config) = Except.ok r) :
    ∃ c1 c2 c3 c4 c5,
      _load_template env "suffix" config = Except.ok c1 ∧
      _load_template env "prefix" c1 = Except.ok c2 ∧
      ((∃ obj, c3 = cfgSet (cfgErase c2 "example_prompt_path")
          "example_prompt" obj) ∨
       (∃ obj, c3 = cfgSet c2 "example_prompt" obj)) ∧
      _load_examples env c3 = Except.ok c4 ∧
      loadOutputParser c4 = Except.ok c5 ∧ r = Value.vfewshotObj c5 := by
  simp only [loadRun] at h
  cases h1 : _load_template env "suffix" config with
  | error e => rw [h1] at h; simp [exc_bind_err] at h
  | ok c1 =>
    rw [h1] at h
    simp only [exc_bind_ok] at h
    cases h2 : _load_template env "prefix" c1 with
    | error e => rw [h2] at h; simp [exc_bind_err] at h
    | ok c2 =>
      rw [h2] at h
      simp only [exc_bind_ok] at h
      by_cases hep : cfgContains c2 "example_prompt_path" = true
      · simp only [hep, if_true] at h
        by_cases hec : cfgContains c2 "example_prompt" = true
        · simp only [hec, if_true] at h
          simp [exc_bind_err] at h
        · simp only [eq_false_of_ne_true hec, Bool.false_eq_true, if_false] at h
          cases hgp : cfgGet c2 "example_prompt_path" with
          | none => rw [hgp] at h; simp [exc_bind_err] at h
          | some pv =>
            rw [hgp] at h
            cases pv with
            | vstr p =>
              cases hre : loadRun env n (Req.entry p) with
              | error e => simp [hre, exc_bind_err] at h
              | ok obj =>
                simp only [hre, exc_bind_ok, exc_pure_bind] at h
                cases h4 : _load_examples env
                    (cfgSet (cfgErase c2 "example_prompt_path")
                      "example_prompt" obj) with
                | error e => rw [h4] at h; simp [exc_bind_err] at h
                | ok c4 =>
                  rw [h4] at h
                  simp only [exc_bind_ok] at h
                  cases h5 : loadOutputParser c4 with
                  | error e => rw [h5] at h; simp [exc_bind_err] at h
                  | ok c5 =>
                    rw [h5] at h
                    simp only [exc_bind_ok] at h
                    exact ⟨c1, c2, _, c4, c5, rfl, h2, Or.inl ⟨obj, rfl⟩, h4,
                      h5, (Except.ok.inj h).symm⟩
            | vnull => simp [exc_bind_err] at h
            | vlist l => simp [exc_bind_err] at h
            | vmap m => simp [exc_bind_err] at h
            | vpromptObj m => simp [exc_bind_err] at h
            | vfewshotObj m => simp [exc_bind_err] at h
            | vparserObj m => simp [exc_bind_err] at h
            | vpyObj s => simp [exc_bind_err] at h
      · simp only [eq_false_of_ne_true hep, Bool.false_eq_true, if_false] at h
        cases hgp : cfgGet c2 "example_prompt" with
        | none => rw [hgp] at h; simp [exc_bind_err] at h
        | some pv =>
          rw [hgp] at h
          cases pv with
          | vmap m =>
            cases hre : loadRun env n (Req.fromConfig m) with
            | error e => simp [hre, exc_bind_err] at h
            | ok obj =>
              simp only [hre, exc_bind_ok, exc_pure_bind] at h
              cases h4 : _load_examples env (cfgSet c2 "example_prompt" obj) with
              | error e => rw [h4] at h; simp [exc_bind_err] at h
              | ok c4 =>
                rw [h4] at h
                simp only [exc_bind_ok] at h
                cases h5 : loadOutputParser c4 with
                | error e => rw [h5] at h; simp [exc_bind_err] at h
                | ok c5 =>
                  rw [h5] at h
                  simp only [exc_bind_ok] at h
                  exact ⟨c1, c2, _, c4, c5, rfl, h2, Or.inr ⟨obj, rfl⟩, h4,
                    h5, (Except.ok.inj h).symm⟩
          | vstr s => simp [exc_bind_err] at h
          | vnull => simp [exc_bind_err] at h
          | vlist l => simp [exc_bind_err] at h
          | vpromptObj m => simp [exc_bind_err] at h
          | vfewshotObj m => simp [exc_bind_err] at h
          | vparserObj m => simp [exc_bind_err] at h
          | vpyObj s => simp [exc_bind_err] at h

theorem loadRun_ok_no_type :
    ∀ fuel : Nat, ∀ env : Env, ∀ req : Req, ∀ kw : Config,
      (∀ c, req = Req.fewShot c → cfgContains c "_type" = false) →
      (loadRun env fuel req = Except.ok (Value.vpromptObj kw) ∨
       loadRun env fuel req = Except.ok (Value.vfewshotObj kw)) →
      cfgContains kw "_type" = false := by
  intro fuel
  induction fuel with
  | zero =>
    intro env req kw hpre h
    rcases h with h | h <;> simp [loadRun] at h
  | succ n ih =>
    intro env req kw hpre h
    cases req with
    | fromConfig config =>
      have hET : cfgContains (cfgErase config "_type") "_type" = false := by
        rw [cfgContains_erase, if_pos rfl]
      simp only [loadRun] at h
      cases hT : (cfgGet config "_type").getD (Value.vstr "prompt") with
      | vstr s =>
        rw [hT] at h
        by_cases hs1 : s = "prompt"
        · simp only [hs1, if_pos] at h
          rcases h with h | h
          · obtain ⟨c1, c2, ht, hp, hr⟩ :=
              _load_prompt_ok_cases env (cfgErase config "_type") _ h
            have hA : cfgContains c1 "_type" = false :=
              _load_template_contains_false env "template" _ c1 "_type" ht
                (by decide) hET
            have hB : cfgContains c2 "_type" = false :=
              loadOutputParser_contains_false c1 c2 "_type" hp (by decide) hA
            rw [Value.vpromptObj.inj hr]
            exact hB
          · obtain ⟨c1, c2, ht, hp, hr⟩ :=
              _load_prompt_ok_cases env (cfgErase config "_type") _ h
            simp at hr
        · by_cases hs2 : s = "few_shot"
          · simp only [hs1, hs2, if_false, if_pos, if_true] at h
            refine ih env (Req.fewShot (cfgErase config "_type")) kw ?_ ?_
            · intro c hc
              injection hc with h3
              rw [← h3]
              exact hET
            · simpa using h
          · simp [hs1, hs2] at h
      | vnull => rw [hT] at h; simp at h
      | vlist l => rw [hT] at h; simp at h
      | vmap m => rw [hT] at h; simp at h
      | vpromptObj m => rw [hT] at h; simp at h
      | vfewshotObj m => rw [hT] at h; simp at h
      | vparserObj m => rw [hT] at h; simp at h
      | vpyObj s => rw [hT] at h; simp at h
    | fewShot config =>
      have hc0 : cfgContains config "_type" = false := hpre config rfl
      rcases h with h | h
      · obtain ⟨c1, c2, c3, c4, c5, h1, h2, hc3, h4, h5, hr⟩ :=
          fewShot_step_ok env n config _ h
        simp at hr
      · obtain ⟨c1, c2, c3, c4, c5, h1, h2, hc3, h4, h5, hr⟩ :=
          fewShot_step_ok env n config _ h
        have hA : cfgContains c1 "_type" = false :=
          _load_template_contains_false env "suffix" _ c1 "_type" h1
            (by decide) hc0
        have hB : cfgContains c2 "_type" = false :=
          _load_template_contains_false env "prefix" _ c2 "_type" h2
            (by decide) hA
        have hC : cfgContains c3 "_type" = false := by
          rcases hc3 with ⟨obj, he⟩ | ⟨obj, he⟩
          · rw [he, cfgContains_set, if_neg (by decide),
              cfgContains_erase, if_neg (by decide)]
            exact hB
          · rw [he, cfgContains_set, if_neg (by decide)]
            exact hB
        have hD : cfgContains c4 "_type" = false :=
          _load_examples_contains_false env c3 c4 "_type" h4 (by decide) hC
        have hE : cfgContains c5 "_type" = false :=
          loadOutputParser_contains_false c4 c5 "_type" h5 (by decide) hD
        rw [Value.vfewshotObj.inj hr]
        exact hE
    | entry path =>
      by_cases hsp : strStartsWith path "lc://prompts" = true
      · simp only [loadRun, hsp, if_pos, if_true] at h
        exact ih env (Req.fromHub (relpathFromHub path)) kw
          (fun c hc => Req.noConfusion hc) h
      · simp only [loadRun, eq_false_of_ne_true hsp, Bool.false_eq_true,
          if_false] at h
        exact ih env (Req.fromFile path) kw (fun c hc => Req.noConfusion hc) h
    | fromFile file =>
      simp only [loadRun] at h
      by_cases hj : pathSuffix file = ".json"
      · simp only [hj, if_pos] at h
        cases hf : env.fs file with
        | none => simp [hf] at h
        | some content =>
          cases hp : env.parseJson content with
          | none => simp [hf, hp] at h
          | some v =>
            simp only [hf, hp] at h
            cases v with
            | vmap config =>
              exact ih env (Req.fromConfig config) kw
                (fun c hc => Req.noConfusion hc) (by simpa using h)
            | vstr s => simp at h
            | vnull => simp at h
            | vlist l => simp at h
            | vpromptObj m => simp at h
            | vfewshotObj m => simp at h
            | vparserObj m => simp at h
            | vpyObj s => simp at h
      · by_cases hy : pathSuffix file = ".yaml"
        · simp only [hj, hy, if_false, if_pos, if_true] at h
          cases hf : env.fs file with
          | none => simp [hf] at h
          | some content =>
            cases hp : env.parseYaml content with
            | none => simp [hf, hp] at h
            | some v =>
              simp only [hf, hp] at h
              cases v with
              | vmap config =>
                exact ih env (Req.fromConfig config) kw
                  (fun c hc => Req.noConfusion hc) (by simpa using h)
              | vstr s => simp at h
              | vnull => simp at h
              | vlist l => simp at h
              | vpromptObj m => simp at h
              | vfewshotObj m => simp at h
              | vparserObj m => simp at h
              | vpyObj s => simp at h
        · by_cases hpy : pathSuffix file = ".py"
          · simp only [hj, hy, hpy, if_false, if_pos, if_true] at h
            cases hf : env.fs file with
            | none => simp [hf] at h
            | some content => simp [hf] at h
          · simp [hj, hy, hpy] at h
    | fromHub path =>
      simp only [loadRun] at h
      by_cases hsfx : hubSuffix path = "py" ∨ hubSuffix path = "json" ∨
          hubSuffix path = "yaml"
      · simp only [hsfx, if_pos, if_true] at h
        by_cases h200 : (env.fetch (URL_BASE ++ path)).1 = 200
        · simp only [h200, ne_eq, not_true_eq_false, if_false,
            if_neg (fun hx : (200 : Nat) ≠ 200 => hx rfl)] at h
          exact ih (env.withFile (env.tmpdir ++ "/prompt." ++ hubSuffix path)
              (env.fetch (URL_BASE ++ path)).2)
            (Req.fromFile (env.tmpdir ++ "/prompt." ++ hubSuffix path)) kw
            (fun c hc => Req.noConfusion hc) (by simpa [h200] using h)
        · simp [h200] at h
      · simp [hsfx] at h

/-! Claim theorems. -/

/-- Claim C4: for every field name `V` with `V_path` present and referencing
a `.txt` file, `_load_template` sets `V` to the file's exact full text and
removes `V_path`; a non-`.txt` extension for `V_path` fails with the
unsupported-format error; and when `V_path` is absent the configuration is
returned unchanged. -/
theorem C4_field_materializer :
    (∀ env v config p text,
      cfgGet config (v ++ "_path") = some (Value.vstr p) →
      cfgContains config v = false →
      pathSuffix p = ".txt" →
      env.fs p = some text →
      _load_template env v config =
        Except.ok (cfgSet (cfgErase config (v ++ "_path")) v
          (Value.vstr text))) ∧
    (∀ env v config p,
      cfgGet config (v ++ "_path") = some (Value.vstr p) →
      cfgContains config v = false →
      pathSuffix p ≠ ".txt" →
      _load_template env v config =
        Except.error Err.unsupportedTemplateFormat) ∧
    (∀ env v config,
      cfgGet config (v ++ "_path") = none →
      _load_template env v config = Except.ok config) :=
  ⟨_load_template_txt, _load_template_bad_ext, _load_template_absent⟩

/-- Witness for C4 at concrete inputs: a `.txt` reference resolves to the
file text, a `.md` reference fails, and a configuration without the path
key is unchanged. -/
theorem C4_field_materializer_witness :
    _load_template
      { emptyEnv with fs := fun p => if p = "a.txt" then some "H" else none }
      "template" [("template_path", Value.vstr "a.txt")] =
      Except.ok (cfgSet (cfgErase [("template_path", Value.vstr "a.txt")]
        ("template" ++ "_path")) "template" (Value.vstr "H")) ∧
    _load_template emptyEnv "template" [("template_path", Value.vstr "a.md")] =
      Except.error Err.unsupportedTemplateFormat ∧
    _load_template emptyEnv "template" [("other", Value.vstr "x")] =
      Except.ok [("other", Value.vstr "x")] :=
  ⟨C4_field_materializer.1 _ "template" _ "a.txt" "H" rfl rfl rfl rfl,
   C4_field_materializer.2.1 emptyEnv "template" _ "a.md" rfl rfl (by decide),
   C4_field_materializer.2.2 emptyEnv "template" _ rfl⟩

/-- Claim C5: `load_prompt_from_config` dispatches on the popped `_type`
tag — absent defaults to the `prompt` variant, `prompt` constructs the
single-template object, `few_shot` the multi-example object, and any other
string tag fails with the unknown-prompt-type error. -/
theorem C5_dispatch :
    (∀ env fuel config, cfgGet config "_type" = none →
      load_prompt_from_config env (fuel + 1) config = _load_prompt env config) ∧
    (∀ env fuel config, cfgGet config "_type" = some (Value.vstr "prompt") →
      load_prompt_from_config env (fuel + 1) config =
        _load_prompt env (cfgErase config "_type")) ∧
    (∀ env fuel config, cfgGet config "_type" = some (Value.vstr "few_shot") →
      load_prompt_from_config env (fuel + 1) config =
        _load_few_shot_prompt env fuel (cfgErase config "_type")) ∧
    (∀ env fuel config s, cfgGet config "_type" = some (Value.vstr s) →
      s ≠ "prompt" → s ≠ "few_shot" →
      load_prompt_from_config env (fuel + 1) config =
        Except.error Err.unknownPromptType) ∧
    (∀ env fuel config t, cfgGet config "_type" = some t →
      Value.isStr t = false →
      load_prompt_from_config env (fuel + 1) config =
        Except.error Err.unknownPromptType) := by
  refine ⟨?_, ?_, ?_, ?_, ?_⟩
  · intro env fuel config h
    unfold load_prompt_from_config loadRun
    simp [h, cfgErase_of_get_none config "_type" h]
  · intro env fuel config h
    unfold load_prompt_from_config loadRun
    simp [h]
  · intro env fuel config h
    unfold load_prompt_from_config loadRun _load_few_shot_prompt
    simp [h]
  · intro env fuel config s h h1 h2
    unfold load_prompt_from_config loadRun
    simp [h, h1, h2]
  · intro env fuel config t h ht
    unfold load_prompt_from_config loadRun
    cases t with
    | vstr s => simp [Value.isStr] at ht
    | vnull => simp [h]
    | vlist l => simp [h]
    | vmap m => simp [h]
    | vpromptObj m => simp [h]
    | vfewshotObj m => simp [h]
    | vparserObj m => simp [h]
    | vpyObj s => simp [h]

/-- Witness for C5 at concrete inputs: the default dispatch, the
unknown-tag failure, and the non-string-tag failure. -/
theorem C5_dispatch_witness :
    load_prompt_from_config emptyEnv 1 [("template", Value.vstr "t")] =
      _load_prompt emptyEnv [("template", Value.vstr "t")] ∧
    load_prompt_from_config emptyEnv 1 [("_type", Value.vstr "chat")] =
      Except.error Err.unknownPromptType ∧
    load_prompt_from_config emptyEnv 1 [("_type", Value.vnull)] =
      Except.error Err.unknownPromptType :=
  ⟨C5_dispatch.1 emptyEnv 0 _ rfl,
   C5_dispatch.2.2.2.1 emptyEnv 0 _ "chat" rfl (by decide) (by decide),
   C5_dispatch.2.2.2.2 emptyEnv 0 _ Value.vnull rfl rfl⟩

/-- Claim C9: when `_load_template` fails on a non-`.txt` `V_path`
reference, the configuration has already been mutated at the point of
failure — `V_path` was popped and `V` was not set, so the dict state
returned next to the error differs from the caller's original mapping. -/
theorem C9_non_atomic (env : Env) (v : String) (config : Config) (p : String)
    (hg : cfgGet config (v ++ "_path") = some (Value.vstr p))
    (hv : cfgContains config v = false)
    (hs : pathSuffix p ≠ ".txt") :
    _load_template_run env v config =
      (cfgErase config (v ++ "_path"), some Err.unsupportedTemplateFormat) ∧
    cfgContains (cfgErase config (v ++ "_path")) (v ++ "_path") = false ∧
    cfgContains (cfgErase config (v ++ "_path")) v = false ∧
    cfgErase config (v ++ "_path") ≠ config := by
  refine ⟨?_, ?_, ?_, ?_⟩
  · unfold _load_template_run
    rw [hg]
    simp [hv, hs]
  · rw [cfgContains_erase, if_pos rfl]
  · rw [cfgContains_erase, if_neg (Ne.symm (path_suffix_key_ne v))]
    exact hv
  · exact cfgErase_ne_of_contains config (v ++ "_path")
      (by simp [cfgContains, hg])

/-- Witness for C9 at a concrete input: a `.csv` template reference leaves
the dict with the path key popped and the field unset. -/
theorem C9_non_atomic_witness :
    _load_template_run emptyEnv "template"
      [("template_path", Value.vstr "a.csv")] =
      (cfgErase [("template_path", Value.vstr "a.csv")]
        ("template" ++ "_path"), some Err.unsupportedTemplateFormat) ∧
    cfgContains (cfgErase [("template_path", Value.vstr "a.csv")]
      ("template" ++ "_path")) ("template" ++ "_path") = false ∧
    cfgContains (cfgErase [("template_path", Value.vstr "a.csv")]
      ("template" ++ "_path")) "template" = false ∧
    cfgErase [("template_path", Value.vstr "a.csv")] ("template" ++ "_path") ≠
      [("template_path", Value.vstr "a.csv")] :=
  C9_non_atomic emptyEnv "template" _ "a.csv" rfl rfl (by decide)

/-- Claim C10: a present, non-null `output_parser` mapping without a
`_type` key fails with the missing-key error (`KeyError`), which is
distinct from every unsupported-strategy error — there is no default
strategy tag at this nested dispatch point. -/
theorem C10_missing_tag (config : Config) (m : Config)
    (hg : cfgGet config "output_parser" = some (Value.vmap m))
    (ht : cfgGet m "_type" = none) :
    loadOutputParser config = Except.error (Err.keyError "_type") ∧
    ∀ t, Err.keyError "_type" ≠ Err.unsupportedStrategy t := by
  constructor
  · unfold loadOutputParser
    rw [hg]
    simp [ht]
  · intro t h
    exact Err.noConfusion h

/-- Witness for C10 at a concrete input: an output parser with fields but
no tag. -/
theorem C10_missing_tag_witness :
    loadOutputParser [("output_parser",
      Value.vmap [("regex", Value.vstr "r")])] =
      Except.error (Err.keyError "_type") ∧
    ∀ t, Err.keyError "_type" ≠ Err.unsupportedStrategy t :=
  C10_missing_tag _ _ rfl rfl

/-- Claim C6, counterexample to the claim as stated: on the `regex_parser`
tag the strategy object is constructed from ALL fields of the nested
configuration — the `_type` tag included, since the source reads
`_config["_type"]` without popping it — not from the remaining fields
only. -/
theorem C6_counterexample :
    loadOutputParser [("output_parser",
      Value.vmap [("_type", Value.vstr "regex_parser"),
        ("output_keys", Value.vlist [])])] =
      Except.ok [("output_parser",
        Value.vparserObj [("_type", Value.vstr "regex_parser"),
          ("output_keys", Value.vlist [])])] ∧
    cfgContains [("_type", Value.vstr "regex_parser"),
      ("output_keys", Value.vlist [])] "_type" = true :=
  ⟨rfl, rfl⟩

/-- Claim C6 (amended): for a present, non-null `output_parser` mapping,
the `regex_parser` tag constructs the strategy object from all fields of
the nested configuration (the tag included, as it is not removed) and
writes it back in place; any other string tag fails with the
unsupported-strategy error naming the tag; an absent `output_parser`
leaves the configuration unchanged. -/
theorem C6_amended :
    (∀ config m, cfgGet config "output_parser" = some (Value.vmap m) →
      cfgGet m "_type" = some (Value.vstr "regex_parser") →
      loadOutputParser config =
        Except.ok (cfgSet config "output_parser" (Value.vparserObj m))) ∧
    (∀ config m s, cfgGet config "output_parser" = some (Value.vmap m) →
      cfgGet m "_type" = some (Value.vstr s) → s ≠ "regex_parser" →
      loadOutputParser config =
        Except.error (Err.unsupportedStrategy (Value.vstr s))) ∧
    (∀ config, cfgGet config "output_parser" = none →
      loadOutputParser config = Except.ok config) := by
  refine ⟨?_, ?_, ?_⟩
  · intro config m hg ht
    unfold loadOutputParser
    rw [hg]
    simp [ht]
  · intro config m s hg ht hs
    unfold loadOutputParser
    rw [hg]
    simp [ht, hs]
  · intro config hg
    unfold loadOutputParser
    rw [hg]

/-- Witness for C6 (amended) at concrete inputs: the regex tag, an unknown
tag, and an absent parser. -/
theorem C6_amended_witness :
    loadOutputParser [("output_parser",
      Value.vmap [("_type", Value.vstr "regex_parser")])] =
      Except.ok (cfgSet [("output_parser",
        Value.vmap [("_type", Value.vstr "regex_parser")])] "output_parser"
        (Value.vparserObj [("_type", Value.vstr "regex_parser")])) ∧
    loadOutputParser [("output_parser",
      Value.vmap [("_type", Value.vstr "json_parser")])] =
      Except.error (Err.unsupportedStrategy (Value.vstr "json_parser")) ∧
    loadOutputParser [("template", Value.vstr "t")] =
      Except.ok [("template", Value.vstr "t")] :=
  ⟨C6_amended.1 _ _ rfl rfl,
   C6_amended.2.1 _ _ "json_parser" rfl rfl (by decide),
   C6_amended.2.2 _ rfl⟩

/-- Claim C7: `_load_examples` passes an inline list through unchanged;
a string value is decoded by trailing extension — `.json` via the JSON
decoder, `.yaml`/`.yml` via the YAML decoder — and the decoded value
replaces the field; a string with any other extension (once the file
opens) fails with the unsupported-examples-format error; and a non-list,
non-string value fails with the invalid-examples-type error. -/
theorem C7_examples :
    (∀ env config l, cfgGet config "examples" = some (Value.vlist l) →
      _load_examples env config = Except.ok config) ∧
    (∀ env config s content ex,
      cfgGet config "examples" = some (Value.vstr s) →
      env.fs s = some content →
      strEndsWith s ".json" = true →
      env.parseJson content = some ex →
      _load_examples env config = Except.ok (cfgSet config "examples" ex)) ∧
    (∀ env config s content ex,
      cfgGet config "examples" = some (Value.vstr s) →
      env.fs s = some content →
      strEndsWith s ".json" = false →
      (strEndsWith s ".yaml" || strEndsWith s ".yml") = true →
      env.parseYaml content = some ex →
      _load_examples env config = Except.ok (cfgSet config "examples" ex)) ∧
    (∀ env config s content,
      cfgGet config "examples" = some (Value.vstr s) →
      env.fs s = some content →
      strEndsWith s ".json" = false →
      strEndsWith s ".yaml" = false →
      strEndsWith s ".yml" = false →
      _load_examples env config =
        Except.error Err.unsupportedExamplesFormat) ∧
    (∀ env config v, cfgGet config "examples" = some v →
      Value.isList v = false → Value.isStr v = false →
      _load_examples env config = Except.error Err.invalidExamplesType) := by
  refine ⟨?_, ?_, ?_, ?_, ?_⟩
  · intro env config l hg
    unfold _load_examples
    rw [hg]
  · intro env config s content ex hg hf hj hp
    unfold _load_examples
    rw [hg]
    simp [hf, hj, hp]
  · intro env config s content ex hg hf hj hy hp
    unfold _load_examples
    rw [hg]
    simp [hf, hj, hy, hp]
  · intro env config s content hg hf hj hy hm
    unfold _load_examples
    rw [hg]
    simp [hf, hj, hy, hm]
  · intro env config v hg hl hs
    unfold _load_examples
    rw [hg]
    cases v with
    | vlist l => simp [Value.isList] at hl
    | vstr s => simp [Value.isStr] at hs
    | vnull => rfl
    | vmap m => rfl
    | vpromptObj m => rfl
    | vfewshotObj m => rfl
    | vparserObj m => rfl
    | vpyObj s => rfl

/-- Witness for C7 at concrete inputs: an inline list, a `.json` file
reference, a `.csv` reference that opens but is unsupported, and a dict
value that is invalid. -/
theorem C7_examples_witness :
    _load_examples emptyEnv [("examples", Value.vlist [Value.vstr "a"])] =
      Except.ok [("examples", Value.vlist [Value.vstr "a"])] ∧
    _load_examples
      { emptyEnv with
          fs := fun p => if p = "ex.json" then some "J" else none
          parseJson := fun _ => some (Value.vlist [Value.vnull]) }
      [("examples", Value.vstr "ex.json")] =
      Except.ok (cfgSet [("examples", Value.vstr "ex.json")] "examples"
        (Value.vlist [Value.vnull])) ∧
    _load_examples
      { emptyEnv with fs := fun p => if p = "ex.csv" then some "C" else none }
      [("examples", Value.vstr "ex.csv")] =
      Except.error Err.unsupportedExamplesFormat ∧
    _load_examples emptyEnv [("examples", Value.vmap [])] =
      Except.error Err.invalidExamplesType :=
  ⟨C7_examples.1 emptyEnv _ [Value.vstr "a"] rfl,
   C7_examples.2.1 _ _ "ex.json" "J" (Value.vlist [Value.vnull]) rfl rfl
     (by decide) rfl,
   C7_examples.2.2.2.1 _ _ "ex.csv" "C" rfl rfl (by decide) (by decide)
     (by decide),
   C7_examples.2.2.2.2 emptyEnv _ (Value.vmap []) rfl rfl rfl⟩

/-- Claim C2, counterexample to the claim as stated: the nested
output-parser tag is NOT popped before construction — `RegexParser` is
called with the whole nested dict, `_type` included, so the tag does
appear among the keyword arguments of a constructed object. -/
theorem C2_counterexample :
    load_prompt_from_config emptyEnv 1
      [("template", Value.vstr "t"),
       ("output_parser", Value.vmap [("_type", Value.vstr "regex_parser"),
         ("regex", Value.vstr "r")])] =
      Except.ok (Value.vpromptObj
        [("template", Value.vstr "t"),
         ("output_parser", Value.vparserObj
           [("_type", Value.vstr "regex_parser"),
            ("regex", Value.vstr "r")])]) ∧
    cfgContains [("_type", Value.vstr "regex_parser"),
      ("regex", Value.vstr "r")] "_type" = true :=
  ⟨rfl, rfl⟩

/-- Claim C2 (amended): the top-level `_type` tag is popped before
dispatch and never appears among the keyword arguments of the constructed
`PromptTemplate` or `FewShotPromptTemplate` object, at any recursion
depth; the nested output-parser tag, by contrast, is read but not removed,
so on the `regex_parser` tag the `RegexParser` keyword arguments are the
whole nested mapping, its `_type` included. -/
theorem C2_amended :
    (∀ env fuel config kw,
      (load_prompt_from_config env fuel config =
          Except.ok (Value.vpromptObj kw) ∨
       load_prompt_from_config env fuel config =
          Except.ok (Value.vfewshotObj kw)) →
      cfgContains kw "_type" = false) ∧
    (∀ config m, cfgGet config "output_parser" = some (Value.vmap m) →
      cfgGet m "_type" = some (Value.vstr "regex_parser") →
      loadOutputParser config =
        Except.ok (cfgSet config "output_parser" (Value.vparserObj m))) := by
  constructor
  · intro env fuel config kw h
    exact loadRun_ok_no_type fuel env (Req.fromConfig config) kw
      (fun c hc => Req.noConfusion hc) h
  · intro config m hg ht
    unfold loadOutputParser
    rw [hg]
    simp [ht]

/-- Witness for C2 (amended) at concrete inputs: a resolved prompt whose
keyword arguments lack the tag, and a parser constructed with its tag
kept. -/
theorem C2_amended_witness :
    cfgContains [("template", Value.vstr "t")] "_type" = false ∧
    loadOutputParser [("output_parser",
      Value.vmap [("_type", Value.vstr "regex_parser")])] =
      Except.ok (cfgSet [("output_parser",
        Value.vmap [("_type", Value.vstr "regex_parser")])] "output_parser"
        (Value.vparserObj [("_type", Value.vstr "regex_parser")])) :=
  ⟨C2_amended.1 emptyEnv 1 [("_type", Value.vstr "prompt"),
      ("template", Value.vstr "t")] _ (Or.inl rfl),
   C2_amended.2 _ _ rfl rfl⟩

/-- Claim C3, counterexample to the claim as stated: a `.yml` extension is
NOT accepted at the top level — even with the file present and parseable
as YAML, `_load_prompt_from_file` fails with the unsupported-file-type
error naming `.yml`, because the source compares the suffix against
`".json"` and `".yaml"` only. -/
theorem C3_counterexample :
    pathSuffix "a.yml" = ".yml" ∧
    _load_prompt_from_file
      { fs := fun p => if p = "a.yml" then some "y" else none
        parseJson := fun _ => none
        parseYaml := fun _ => some (Value.vmap [("template", Value.vstr "t")])
        fetch := fun _ => (404, "")
        tmpdir := "/tmp/t" } 2 "a.yml" =
      Except.error (Err.unsupportedFileType ".yml") :=
  ⟨rfl, rfl⟩

/-- Claim C3 (amended): `.json` files parse via the JSON decoder and
`.yaml` files via the YAML decoder (but `.yml` is NOT accepted), each
feeding the parsed configuration to the resolver, so the same parsed
configuration arriving through either format yields the same resolved
object; any suffix other than `.json`, `.yaml` and `.py` fails with the
unsupported-file-type error naming the suffix (which covers `.yml`). -/
theorem C3_amended :
    (∀ env fuel file content cfg,
      pathSuffix file = ".json" →
      env.fs file = some content →
      env.parseJson content = some (Value.vmap cfg) →
      _load_prompt_from_file env (fuel + 1) file =
        load_prompt_from_config env fuel cfg) ∧
    (∀ env fuel file content cfg,
      pathSuffix file = ".yaml" →
      env.fs file = some content →
      env.parseYaml content = some (Value.vmap cfg) →
      _load_prompt_from_file env (fuel + 1) file =
        load_prompt_from_config env fuel cfg) ∧
    (∀ env fuel f1 f2 s1 s2 cfg,
      pathSuffix f1 = ".json" → pathSuffix f2 = ".yaml" →
      env.fs f1 = some s1 → env.fs f2 = some s2 →
      env.parseJson s1 = some (Value.vmap cfg) →
      env.parseYaml s2 = some (Value.vmap cfg) →
      _load_prompt_from_file env (fuel + 1) f1 =
        _load_prompt_from_file env (fuel + 1) f2) ∧
    (∀ env fuel file,
      pathSuffix file ≠ ".json" → pathSuffix file ≠ ".yaml" →
      pathSuffix file ≠ ".py" →
      _load_prompt_from_file env (fuel + 1) file =
        Except.error (Err.unsupportedFileType (pathSuffix file))) := by
  have ha : ∀ env : Env, ∀ fuel : Nat, ∀ file content : String,
      ∀ cfg : Config,
      pathSuffix file = ".json" →
      env.fs file = some content →
      env.parseJson content = some (Value.vmap cfg) →
      _load_prompt_from_file env (fuel + 1) file =
        load_prompt_from_config env fuel cfg := by
    intro env fuel file content cfg hj hf hp
    unfold _load_prompt_from_file loadRun load_prompt_from_config
    simp [hj, hf, hp]
  have hb : ∀ env : Env, ∀ fuel : Nat, ∀ file content : String,
      ∀ cfg : Config,
      pathSuffix file = ".yaml" →
      env.fs file = some content →
      env.parseYaml content = some (Value.vmap cfg) →
      _load_prompt_from_file env (fuel + 1) file =
        load_prompt_from_config env fuel cfg := by
    intro env fuel file content cfg hy hf hp
    unfold _load_prompt_from_file loadRun load_prompt_from_config
    simp [hy, hf, hp]
  refine ⟨ha, hb, ?_, ?_⟩
  · intro env fuel f1 f2 s1 s2 cfg hj hy hf1 hf2 hp1 hp2
    rw [ha env fuel f1 s1 cfg hj hf1 hp1, hb env fuel f2 s2 cfg hy hf2 hp2]
  · intro env fuel file h1 h2 h3
    unfold _load_prompt_from_file loadRun
    simp [h1, h2, h3]

/-- Witness for C3 (amended) at concrete inputs: a `.json` and a `.yaml`
file carrying the same parsed configuration resolve identically, and a
`.yml` file is rejected with its suffix named. -/
theorem C3_amended_witness :
    _load_prompt_from_file
      { fs := fun p => if p = "c.json" then some "J"
          else if p = "c.yaml" then some "Y" else none
        parseJson := fun _ => some (Value.vmap [("template", Value.vstr "t")])
        parseYaml := fun _ => some (Value.vmap [("template", Value.vstr "t")])
        fetch := fun _ => (404, "")
        tmpdir := "/tmp/t" } 2 "c.json" =
      _load_prompt_from_file
        { fs := fun p => if p = "c.json" then some "J"
            else if p = "c.yaml" then some "Y" else none
          parseJson := fun _ => some (Value.vmap [("template", Value.vstr "t")])
          parseYaml := fun _ => some (Value.vmap [("template", Value.vstr "t")])
          fetch := fun _ => (404, "")
          tmpdir := "/tmp/t" } 2 "c.yaml" ∧
    _load_prompt_from_file emptyEnv 1 "c.yml" =
      Except.error (Err.unsupportedFileType (pathSuffix "c.yml")) :=
  ⟨C3_amended.2.2.1 _ 1 "c.json" "c.yaml" "J" "Y"
      [("template", Value.vstr "t")] rfl rfl rfl rfl rfl rfl,
   C3_amended.2.2.2 emptyEnv 0 "c.yml" (by decide) (by decide) (by decide)⟩

/-- Claim C8: `_load_from_hub` validates the trailing extension against
`{py, json, yaml}` before any fetch (on a bad extension the result does
not depend on the environment at all); for an accepted extension it
fetches exactly the URL obtained by appending the identifier to the fixed
remote base, fails with the not-found error naming that full URL on a
non-200 status, and on success writes the body to the scoped temporary
file and delegates to the file reader. -/
theorem C8_hub :
    (∀ env env2 : Env, ∀ fuel fuel2 : Nat, ∀ path : String,
      hubSuffix path ≠ "py" → hubSuffix path ≠ "json" →
      hubSuffix path ≠ "yaml" →
      _load_from_hub env (fuel + 1) path =
        Except.error Err.unsupportedHubType ∧
      _load_from_hub env (fuel + 1) path =
        _load_from_hub env2 (fuel2 + 1) path) ∧
    (∀ env : Env, ∀ fuel : Nat, ∀ path : String,
      (hubSuffix path = "py" ∨ hubSuffix path = "json" ∨
        hubSuffix path = "yaml") →
      (env.fetch (URL_BASE ++ path)).1 ≠ 200 →
      _load_from_hub env (fuel + 1) path =
        Except.error (Err.notFound (URL_BASE ++ path))) ∧
    (∀ env : Env, ∀ fuel : Nat, ∀ path : String,
      (hubSuffix path = "py" ∨ hubSuffix path = "json" ∨
        hubSuffix path = "yaml") →
      (env.fetch (URL_BASE ++ path)).1 = 200 →
      _load_from_hub env (fuel + 1) path =
        _load_prompt_from_file
          (env.withFile (env.tmpdir ++ "/prompt." ++ hubSuffix path)
            (env.fetch (URL_BASE ++ path)).2)
          fuel (env.tmpdir ++ "/prompt." ++ hubSuffix path)) := by
  refine ⟨?_, ?_, ?_⟩
  · intro env env2 fuel fuel2 path h1 h2 h3
    constructor
    · unfold _load_from_hub loadRun
      simp [h1, h2, h3]
    · unfold _load_from_hub loadRun
      simp [h1, h2, h3]
  · intro env fuel path hok h200
    unfold _load_from_hub loadRun
    simp [hok, h200]
  · intro env fuel path hok h200
    unfold _load_from_hub loadRun _load_prompt_from_file
    simp [hok, h200]

/-- Witness for C8 at concrete inputs: a `.csv` identifier is rejected
under two different environments, and a `.yaml` identifier the remote
does not have fails naming the full URL. -/
theorem C8_hub_witness :
    _load_from_hub emptyEnv 1 "x.csv" =
      Except.error Err.unsupportedHubType ∧
    _load_from_hub emptyEnv 1 "x.csv" =
      _load_from_hub { emptyEnv with fetch := fun _ => (200, "B") } 3 "x.csv" ∧
    _load_from_hub emptyEnv 1 "p.yaml" =
      Except.error (Err.notFound (URL_BASE ++ "p.yaml")) :=
  ⟨(C8_hub.1 emptyEnv { emptyEnv with fetch := fun _ => (200, "B") } 0 2
      "x.csv" (by decide) (by decide) (by decide)).1,
   (C8_hub.1 emptyEnv { emptyEnv with fetch := fun _ => (200, "B") } 0 2
      "x.csv" (by decide) (by decide) (by decide)).2,
   C8_hub.2.1 emptyEnv 0 "p.yaml" (by decide) (by decide)⟩

theorem dispatch_few_shot (env : Env) (fuel : Nat) (config : Config)
    (h : cfgGet config "_type" = some (Value.vstr "few_shot")) :
    load_prompt_from_config env (fuel + 1) config =
      _load_few_shot_prompt env fuel (cfgErase config "_type") := by
  unfold load_prompt_from_config loadRun _load_few_shot_prompt
  simp [h]

theorem cfgContains_erase_type (config : Config) (k : String)
    (hk : k ≠ "_type") :
    cfgContains (cfgErase config "_type") k = cfgContains config k := by
  rw [cfgContains_erase, if_neg hk]

theorem cfgGet_erase_type (config : Config) (k : String) (hk : k ≠ "_type") :
    cfgGet (cfgErase config "_type") k = cfgGet config k := by
  rw [cfgGet_erase, if_neg hk]

/-- Claim C1, counterexample to the claim as stated: a `prompt`-type
configuration supplying both `prefix` and `prefix_path` resolves
successfully — no conflict error is raised, and the constructed object's
keyword arguments contain both keys — because the `prompt` variant never
runs the conflict check for fields it does not resolve. -/
theorem C1_counterexample :
    cfgContains [("template", Value.vstr "t"), ("prefix", Value.vstr "a"),
      ("prefix_path", Value.vstr "b.txt")] "prefix" = true ∧
    cfgContains [("template", Value.vstr "t"), ("prefix", Value.vstr "a"),
      ("prefix_path", Value.vstr "b.txt")] "prefix_path" = true ∧
    load_prompt_from_config emptyEnv 1
      [("template", Value.vstr "t"), ("prefix", Value.vstr "a"),
       ("prefix_path", Value.vstr "b.txt")] =
      Except.ok (Value.vpromptObj
        [("template", Value.vstr "t"), ("prefix", Value.vstr "a"),
         ("prefix_path", Value.vstr "b.txt")]) :=
  ⟨rfl, rfl, rfl⟩

/-- Claim C1 (amended): for each field the selected variant actually
resolves — `template` under the `prompt` variant; `suffix`, `prefix` and
`example_prompt` under the `few_shot` variant — supplying both `F` and
`F_path` fails with the conflicting-field error naming `F`, and whenever
`_load_template` succeeds its result never contains both `F` and
`F_path`.  Fields not resolved by the selected variant are passed through
without this check. -/
theorem C1_amended :
    (∀ env fuel config,
      (cfgGet config "_type" = none ∨
        cfgGet config "_type" = some (Value.vstr "prompt")) →
      cfgContains config "template" = true →
      cfgContains config "template_path" = true →
      load_prompt_from_config env (fuel + 1) config =
        Except.error (Err.conflictingField "template")) ∧
    (∀ env fuel config,
      cfgGet config "_type" = some (Value.vstr "few_shot") →
      cfgContains config "suffix" = true →
      cfgContains config "suffix_path" = true →
      load_prompt_from_config env (fuel + 1 + 1) config =
        Except.error (Err.conflictingField "suffix")) ∧
    (∀ env fuel config,
      cfgGet config "_type" = some (Value.vstr "few_shot") →
      cfgGet config "suffix_path" = none →
      cfgContains config "prefix" = true →
      cfgContains config "prefix_path" = true →
      load_prompt_from_config env (fuel + 1 + 1) config =
        Except.error (Err.conflictingField "prefix")) ∧
    (∀ env fuel config,
      cfgGet config "_type" = some (Value.vstr "few_shot") →
      cfgGet config "suffix_path" = none →
      cfgGet config "prefix_path" = none →
      cfgContains config "example_prompt" = true →
      cfgContains config "example_prompt_path" = true →
      load_prompt_from_config env (fuel + 1 + 1) config =
        Except.error (Err.conflictingField "example_prompt")) ∧
    (∀ env v c c', _load_template env v c = Except.ok c' →
      (cfgContains c' v && cfgContains c' (v ++ "_path")) = false) := by
  refine ⟨?_, ?_, ?_, ?_, _load_template_not_both⟩
  · intro env fuel config hT h1 h2
    have hP : cfgContains (cfgErase config "_type") "template_path" = true := by
      rw [cfgContains_erase_type config "template_path" (by decide)]
      exact h2
    have hV : cfgContains (cfgErase config "_type") "template" = true := by
      rw [cfgContains_erase_type config "template" (by decide)]
      exact h1
    rcases hT with hT | hT
    · unfold load_prompt_from_config loadRun
      simp only [hT, Option.getD_none]
      simp only [if_pos]
      unfold _load_prompt
      rw [_load_template_conflict env "template" (cfgErase config "_type")
        hP hV]
      rfl
    · unfold load_prompt_from_config loadRun
      simp only [hT, Option.getD_some]
      simp only [if_pos]
      unfold _load_prompt
      rw [_load_template_conflict env "template" (cfgErase config "_type")
        hP hV]
      rfl
  · intro env fuel config hT h1 h2
    have hP : cfgContains (cfgErase config "_type") "suffix_path" = true := by
      rw [cfgContains_erase_type config "suffix_path" (by decide)]
      exact h2
    have hV : cfgContains (cfgErase config "_type") "suffix" = true := by
      rw [cfgContains_erase_type config "suffix" (by decide)]
      exact h1
    rw [dispatch_few_shot env (fuel + 1) config hT]
    unfold _load_few_shot_prompt loadRun
    rw [_load_template_conflict env "suffix" (cfgErase config "_type") hP hV]
    rfl
  · intro env fuel config hT hsp h1 h2
    have hA : cfgGet (cfgErase config "_type") "suffix_path" = none := by
      rw [cfgGet_erase_type config "suffix_path" (by decide)]
      exact hsp
    have hP : cfgContains (cfgErase config "_type") "prefix_path" = true := by
      rw [cfgContains_erase_type config "prefix_path" (by decide)]
      exact h2
    have hV : cfgContains (cfgErase config "_type") "prefix" = true := by
      rw [cfgContains_erase_type config "prefix" (by decide)]
      exact h1
    rw [dispatch_few_shot env (fuel + 1) config hT]
    unfold _load_few_shot_prompt loadRun
    rw [_load_template_absent env "suffix" (cfgErase config "_type") hA]
    simp only [exc_bind_ok]
    rw [_load_template_conflict env "prefix" (cfgErase config "_type") hP hV]
    rfl
  · intro env fuel config hT hsp hpp h1 h2
    have hA : cfgGet (cfgErase config "_type") "suffix_path" = none := by
      rw [cfgGet_erase_type config "suffix_path" (by decide)]
      exact hsp
    have hB : cfgGet (cfgErase config "_type") "prefix_path" = none := by
      rw [cfgGet_erase_type config "prefix_path" (by decide)]
      exact hpp
    have hP : cfgContains (cfgErase config "_type") "example_prompt_path" =
        true := by
      rw [cfgContains_erase_type config "example_prompt_path" (by decide)]
      exact h2
    have hV : cfgContains (cfgErase config "_type") "example_prompt" =
        true := by
      rw [cfgContains_erase_type config "example_prompt" (by decide)]
      exact h1
    rw [dispatch_few_shot env (fuel + 1) config hT]
    unfold _load_few_shot_prompt loadRun
    rw [_load_template_absent env "suffix" (cfgErase config "_type") hA]
    simp only [exc_bind_ok]
    rw [_load_template_absent env "prefix" (cfgErase config "_type") hB]
    simp only [exc_bind_ok]
    simp [hP, hV, exc_bind_err]

/-- Witness for C1 (amended) at concrete inputs: the template conflict
under the default variant, the suffix conflict under the few-shot
variant, and the never-both invariant after a successful resolution. -/
theorem C1_amended_witness :
    load_prompt_from_config emptyEnv 1
      [("template", Value.vstr "t"), ("template_path", Value.vstr "p.txt")] =
      Except.error (Err.conflictingField "template") ∧
    load_prompt_from_config emptyEnv 2
      [("_type", Value.vstr "few_shot"), ("suffix", Value.vstr "s"),
       ("suffix_path", Value.vstr "x.txt")] =
      Except.error (Err.conflictingField "suffix") ∧
    (cfgContains [("other", Value.vstr "x")] "template" &&
      cfgContains [("other", Value.vstr "x")] ("template" ++ "_path")) =
      false :=
  ⟨C1_amended.1 emptyEnv 0 _ (Or.inl rfl) rfl rfl,
   C1_amended.2.1 emptyEnv 0 _ rfl rfl rfl,
   C1_amended.2.2.2.2 emptyEnv "template" [("other", Value.vstr "x")] _ rfl⟩
